import Mathlib

/-!
Verification of the earthquake OLAP warehouse core against its specification.

The development shallowly embeds the three core subsystems:
  * the partition state tracker (`src/utils/data_manager.py`),
  * the dimensional schema builder (`src/olap/schema.py`),
  * the cube materializer (`src/olap/cube.py`),
and the row-level cleaning/validation of `src/etl/transform.py`.

Modelling conventions:
  * SQL / Python floats are embedded as `ℚ` (no claim depends on rounding);
  * nullable columns are `Option _`; SQL `COALESCE(x, d)` is `Option.getD x d`;
  * SQL equality inside a join predicate is three-valued: `NULL = NULL` is not
    true, which `sqlEqOpt` captures; `SELECT DISTINCT` however treats NULLs as
    equal, which plain `List.dedup` on `Option _` captures;
  * a table is a list of rows; `CREATE OR REPLACE` is modelled by overwriting
    the corresponding field of the database state;
  * DuckDB string ordering (binary collation) is modelled by code-point
    lexicographic comparison, defined structurally so that it evaluates.
-/

/-! ### List infrastructure: insertion sort and first-occurrence dedup

`sortBy` models Python `sorted` / SQL `ORDER BY` (stable insertion sort);
`dedupKeyed` models `SELECT DISTINCT ON (k)` keeping the first row of each
key group. Both are structural so that concrete examples evaluate.
-/
def insertLe {α : Type} (le : α → α → Bool) (x : α) : List α → List α
  | [] => [x]
  | y :: ys => if le x y then x :: y :: ys else y :: insertLe le x ys

def sortBy {α : Type} (le : α → α → Bool) : List α → List α
  | [] => []
  | x :: xs => insertLe le x (sortBy le xs)

def dedupKeyed {α κ : Type} [DecidableEq κ] (key : α → κ) :
    List κ → List α → List α
  | _, [] => []
  | seen, x :: xs =>
    if key x ∈ seen then dedupKeyed key seen xs
    else x :: dedupKeyed key (key x :: seen) xs

/-! ### Partition state tracker (`src/utils/data_manager.py`)

`Metadata` models the persisted JSON document: the `loaded_years` list and the
`year_details` mapping (per-year row counts; the remaining detail fields and
timestamps do not influence any claimed behavior and are omitted).  The live
DuckDB store is abstracted as a probe function `store : ℤ → Option ℕ`: the
result of `SELECT COUNT(*) FROM raw_earthquakes_<year>` when the backing table
exists and the query succeeds, and `none` when the table is absent or the
query errors (the code catches the exception and treats the year as not
loaded, so the probe outcome is the only observable).
-/
structure Metadata where
  loaded_years : List Int
  year_details : List (Int × Nat)
  deriving DecidableEq

def intLe (a b : Int) : Bool := decide (a ≤ b)

/-- Probe of `validate_loaded_years`: the year passes when the backing table
exists and holds at least one row. -/
def probeOk (store : Int → Option Nat) (y : Int) : Bool :=
  match store y with
  | some n => decide (0 < n)
  | none => false

/-- `DataManager.validate_loaded_years` (lines 209-251): probes every claimed
year, purges failing years from the metadata (`loaded_years` and
`year_details`) when any is found, and returns the sorted surviving years. -/
def validate_loaded_years (store : Int → Option Nat) (md : Metadata) :
    List Int × Metadata :=
  let claimed := md.loaded_years.dedup
  let actual := claimed.filter (fun y => probeOk store y)
  let missing := claimed.filter (fun y => ! probeOk store y)
  let res := sortBy intLe actual
  (res,
   if missing.isEmpty then md
   else
     { loaded_years := res,
       year_details := md.year_details.filter (fun p => p.1 ∉ missing) })

/-- The requested contiguous year range `range(start_year, end_year + 1)`. -/
def yearRange (s e : Int) : List Int :=
  (List.range (e + 1 - s).toNat).map (fun (i : Nat) => s + (i : Int))

/-- `DataManager.get_years_to_load` (lines 34-56):
`sorted(requested_years - loaded_years)` where `loaded_years` is read from the
persisted metadata. -/
def get_years_to_load (s e : Int) (md : Metadata) : List Int :=
  sortBy intLe ((yearRange s e).filter (fun y => y ∉ md.loaded_years))

/-- `DataManager.mark_year_loaded` (lines 58-76): appends the year when absent
and re-sorts; a present year leaves the list untouched. -/
def mark_year_loaded (y : Int) (md : Metadata) : Metadata :=
  if y ∈ md.loaded_years then md
  else { md with loaded_years := sortBy intLe (md.loaded_years ++ [y]) }

/-- The gap loop of `DataManager.get_summary` (lines 127-132). -/
def gapsOf : List Int → List (Int × Int)
  | [] => []
  | [_] => []
  | a :: b :: rest =>
    (if b - a - 1 > 0 then [(a + 1, b - 1)] else []) ++ gapsOf (b :: rest)

structure Summary where
  total_years : Nat
  year_range : Option (Int × Int)
  loaded_years : List Int
  gaps : List (Int × Int)
  total_events : Nat
  deriving DecidableEq

def listMinInt (l : List Int) : Int :=
  match l with
  | [] => 0
  | x :: xs => xs.foldl min x

def listMaxInt (l : List Int) : Int :=
  match l with
  | [] => 0
  | x :: xs => xs.foldl max x

/-- `DataManager.get_summary` (lines 110-148). -/
def get_summary (md : Metadata) : Summary :=
  if md.loaded_years.isEmpty then
    { total_years := 0, year_range := none, loaded_years := [],
      gaps := [], total_events := 0 }
  else
    { total_years := md.loaded_years.length,
      year_range := some (listMinInt md.loaded_years, listMaxInt md.loaded_years),
      loaded_years := md.loaded_years,
      gaps := gapsOf md.loaded_years,
      total_events := (md.year_details.map (fun p => p.2)).sum }

/-! ### Raw records

`RawRow` is the column contract of the unified `raw_earthquakes` table (and of
the transformed per-partition batches that are unioned into it).  The `time`
string column of the pre-enrichment frame and the parsed `datetime` column are
identified: timestamp parsing is an excluded library concern and the abstract
instant is modelled as `Int` (epoch seconds).  `event_id` is the upstream
natural key, a non-null string by the data contract.
-/
structure RawRow where
  event_id : String
  datetime : Option Int
  year : Option Int
  month : Option Int
  day : Option Int
  hour : Option Int
  day_of_week : Option Int
  latitude : Option ℚ
  longitude : Option ℚ
  place : Option String
  region : Option String
  magnitude : Option ℚ
  magnitude_type : Option String
  magnitude_category : Option String
  depth : Option ℚ
  depth_category : Option String
  num_stations : Option Int
  azimuthal_gap : Option ℚ
  min_distance : Option ℚ
  rms : Option ℚ
  horizontal_error : Option ℚ
  depth_error : Option ℚ
  magnitude_error : Option ℚ
  network : Option String
  status : Option String
  event_type : Option String
  moon_phase : Option ℚ
  moon_phase_name : Option String
  deriving DecidableEq

/-! ### String ordering

DuckDB orders strings by binary collation; modelled as code-point
lexicographic comparison, structurally so it kernel-evaluates. -/
def charListLt : List Char → List Char → Bool
  | [], [] => false
  | [], _ :: _ => true
  | _ :: _, [] => false
  | a :: as, b :: bs =>
    if a.toNat < b.toNat then true
    else if b.toNat < a.toNat then false
    else charListLt as bs

def strLt (a b : String) : Bool := charListLt a.data b.data

def strLe (a b : String) : Bool := strLt a b || decide (a = b)

/-- NULLS-LAST comparison on a nullable string column (DuckDB default). -/
def optStrLe : Option String → Option String → Bool
  | some a, some b => strLe a b
  | some _, none => true
  | none, some _ => false
  | none, none => true

/-! ### Transform (`src/etl/transform.py`)

The moon-phase enrichment and the timestamp/region string processing are
excluded collaborators: they only map rows (never drop them), so they do not
affect the row counts or the validated column values that the claims are
about.  The magnitude/depth category derivations are modelled exactly. -/
structure ValidationCfg where
  min_magnitude : ℚ
  max_magnitude : ℚ
  min_depth : ℚ
  max_depth : ℚ
  deriving DecidableEq

/-- A polars range filter on a nullable column: a NULL comparison yields NULL
and the row is dropped by `filter`. -/
def inRangeQ (x : Option ℚ) (lo hi : ℚ) : Bool :=
  match x with
  | some v => decide (lo ≤ v ∧ v ≤ hi)
  | none => false

/-- The `drop_nulls` predicate of `_clean_data`: the critical fields
`time, latitude, longitude, magnitude` are all non-null. -/
def criticalOk (r : RawRow) : Bool :=
  r.datetime.isSome && r.latitude.isSome && r.longitude.isSome && r.magnitude.isSome

/-- The fill step of `_clean_data`: NULL `depth` becomes 0.0 and NULL `place`
becomes Unknown. -/
def fillRow (r : RawRow) : RawRow :=
  { r with depth := some (r.depth.getD 0), place := some (r.place.getD "Unknown") }

/-- `DataTransformer._clean_data` (lines 110-135). -/
def clean_data (df : List RawRow) : List RawRow :=
  (df.filter criticalOk).map fillRow

/-- `DataTransformer._validate_data` (lines 137-173): three successive range
filters (magnitude, depth, coordinates); the coordinate bounds are hardcoded
to latitude -90..90 and longitude -180..180. -/
def validate_data (cfg : ValidationCfg) (df : List RawRow) : List RawRow :=
  ((df.filter (fun r => inRangeQ r.magnitude cfg.min_magnitude cfg.max_magnitude)).filter
      (fun r => inRangeQ r.depth cfg.min_depth cfg.max_depth)).filter
    (fun r => inRangeQ r.latitude (-90) 90 && inRangeQ r.longitude (-180) 180)

/-- Magnitude category thresholds of `_enrich_data` (lines 200-215). -/
def magCategory (m : ℚ) : String :=
  if m < 3 then "Minor"
  else if m < 5 then "Light"
  else if m < 6 then "Moderate"
  else if m < 7 then "Strong"
  else if m < 8 then "Major"
  else "Great"

/-- Depth category thresholds of `_enrich_data` (lines 217-226). -/
def depthCategory (d : ℚ) : String :=
  if d < 70 then "Shallow"
  else if d < 300 then "Intermediate"
  else "Deep"

/-- The computable part of `_enrich_data`: category columns derived from
magnitude and depth (NULL input propagates to NULL).  The timestamp component
and region string derivations are library-level row maps and are carried
through unchanged. -/
def enrichRow (r : RawRow) : RawRow :=
  { r with magnitude_category := r.magnitude.map magCategory,
           depth_category := r.depth.map depthCategory }

/-- `DataTransformer.transform` (lines 28-63) at row level: standardize is a
rename, then clean, validate, enrich; the moon-phase stage appends columns and
never drops a row. -/
def transform_rows (cfg : ValidationCfg) (df : List RawRow) : List RawRow :=
  (validate_data cfg (clean_data df)).map enrichRow

/-- Row-level survival predicate of the transform pipeline. -/
def survivesTransform (cfg : ValidationCfg) (r : RawRow) : Bool :=
  criticalOk r
    && inRangeQ (fillRow r).magnitude cfg.min_magnitude cfg.max_magnitude
    && inRangeQ (fillRow r).depth cfg.min_depth cfg.max_depth
    && (inRangeQ (fillRow r).latitude (-90) 90 && inRangeQ (fillRow r).longitude (-180) 180)

/-! ### Dimension builders (`src/olap/schema.py`)

Each dimension selects the distinct (NULL-coalesced) natural-key tuple set
from `raw_earthquakes`, sorts it by the SQL `ORDER BY` columns and assigns
`ROW_NUMBER()` surrogate keys starting at 1.  A dimension table is a list of
`(surrogate id, natural key tuple)` pairs; the remaining columns of the SQL
SELECT (`day_name`, `season`, `is_weekend`, hemisphere and climate-zone
classes, `effects_description`, `energy_joules`) are pure functions of the
key tuple — the computable ones are defined below where the cubes need them,
and `energy_joules = 10 ^ (1.5 * magnitude + 4.8)` is a deterministic
real-valued function of `magnitude` kept outside the rational model. -/
structure TimeKey where
  datetime : Int
  year : Option Int
  month : Option Int
  day : Option Int
  hour : Option Int
  day_of_week : Option Int
  deriving DecidableEq

structure LocKey where
  latitude : ℚ
  longitude : ℚ
  place : String
  region : String
  deriving DecidableEq

structure MagKey where
  magnitude : ℚ
  magnitude_type : String
  magnitude_category : Option String
  deriving DecidableEq

/-- `ORDER BY datetime` of `_create_dim_time`. -/
def timeKeyLe (a b : TimeKey) : Bool := decide (a.datetime ≤ b.datetime)

/-- `ORDER BY latitude, longitude, place, region` of `_create_dim_location`. -/
def locKeyLe (a b : LocKey) : Bool :=
  if a.latitude ≠ b.latitude then decide (a.latitude < b.latitude)
  else if a.longitude ≠ b.longitude then decide (a.longitude < b.longitude)
  else if a.place ≠ b.place then strLt a.place b.place
  else strLe a.region b.region

/-- `ORDER BY magnitude, magnitude_type, magnitude_category` of
`_create_dim_magnitude`. -/
def magKeyLe (a b : MagKey) : Bool :=
  if a.magnitude ≠ b.magnitude then decide (a.magnitude < b.magnitude)
  else if a.magnitude_type ≠ b.magnitude_type then strLt a.magnitude_type b.magnitude_type
  else optStrLe a.magnitude_category b.magnitude_category

/-- Inner `SELECT DISTINCT datetime, year, month, day, hour, day_of_week FROM
raw_earthquakes WHERE datetime IS NOT NULL` of `_create_dim_time`. -/
def time_keys (raw : List RawRow) : List TimeKey :=
  (raw.filterMap (fun r => r.datetime.map (fun d =>
    { datetime := d, year := r.year, month := r.month, day := r.day,
      hour := r.hour, day_of_week := r.day_of_week }))).dedup

/-- Inner distinct coalesced tuple set of `_create_dim_location`
(`WHERE latitude IS NOT NULL AND longitude IS NOT NULL`, place and region
coalesced to Unknown). -/
def loc_keys (raw : List RawRow) : List LocKey :=
  (raw.filterMap (fun r =>
    match r.latitude, r.longitude with
    | some la, some lo =>
      some { latitude := la, longitude := lo,
             place := r.place.getD "Unknown", region := r.region.getD "Unknown" }
    | _, _ => none)).dedup

/-- Inner distinct coalesced tuple set of `_create_dim_magnitude`
(`WHERE magnitude IS NOT NULL`, magnitude_type coalesced to Unknown,
magnitude_category NOT coalesced). -/
def mag_keys (raw : List RawRow) : List MagKey :=
  (raw.filterMap (fun r => r.magnitude.map (fun m =>
    { magnitude := m, magnitude_type := r.magnitude_type.getD "Unknown",
      magnitude_category := r.magnitude_category }))).dedup

/-- `OLAPSchema._create_dim_time` (lines 42-93). -/
def create_dim_time (raw : List RawRow) : List (Nat × TimeKey) :=
  List.enumFrom 1 (sortBy timeKeyLe (time_keys raw))

/-- `OLAPSchema._create_dim_location` (lines 95-142). -/
def create_dim_location (raw : List RawRow) : List (Nat × LocKey) :=
  List.enumFrom 1 (sortBy locKeyLe (loc_keys raw))

/-- `OLAPSchema._create_dim_magnitude` (lines 144-187). -/
def create_dim_magnitude (raw : List RawRow) : List (Nat × MagKey) :=
  List.enumFrom 1 (sortBy magKeyLe (mag_keys raw))

/-! ### Fact table (`OLAPSchema._create_fact_earthquakes`, lines 189-273) -/
structure FactRow where
  earthquake_id : String
  time_id : Option Nat
  location_id : Option Nat
  magnitude_id : Option Nat
  event_id : String
  depth : ℚ
  depth_category : String
  num_stations : Int
  azimuthal_gap : ℚ
  min_distance : ℚ
  rms : ℚ
  horizontal_error : ℚ
  depth_error : ℚ
  magnitude_error : ℚ
  network : String
  status : String
  event_type : String
  moon_phase : ℚ
  moon_phase_name : String
  deriving DecidableEq

/-- SQL equality in a join predicate: a comparison with NULL is never true. -/
def sqlEqOpt {α : Type} [DecidableEq α] : Option α → Option α → Bool
  | some a, some b => decide (a = b)
  | _, _ => false

/-- The `WHERE` prerequisite of the fact build: `datetime`, `latitude`,
`longitude`, `magnitude` all non-null (lines 240-243). -/
def prereqOk (r : RawRow) : Bool :=
  r.datetime.isSome && r.latitude.isSome && r.longitude.isSome && r.magnitude.isSome

/-- Join predicate `r.datetime = t.datetime`. -/
def timeMatches (dt : List (Nat × TimeKey)) (r : RawRow) : List (Nat × TimeKey) :=
  dt.filter (fun t => sqlEqOpt r.datetime (some t.2.datetime))

/-- Join predicate on latitude, longitude and the coalesced place/region. -/
def locMatches (dl : List (Nat × LocKey)) (r : RawRow) : List (Nat × LocKey) :=
  dl.filter (fun l =>
    sqlEqOpt r.latitude (some l.2.latitude) && sqlEqOpt r.longitude (some l.2.longitude)
      && decide (r.place.getD "Unknown" = l.2.place)
      && decide (r.region.getD "Unknown" = l.2.region))

/-- Join predicate on magnitude, coalesced magnitude_type and the raw
(uncoalesced) magnitude_category: `r.magnitude_category = m.magnitude_category`
is SQL three-valued, so a NULL category never matches. -/
def magMatches (dm : List (Nat × MagKey)) (r : RawRow) : List (Nat × MagKey) :=
  dm.filter (fun m =>
    sqlEqOpt r.magnitude (some m.2.magnitude)
      && decide (r.magnitude_type.getD "Unknown" = m.2.magnitude_type)
      && sqlEqOpt r.magnitude_category m.2.magnitude_category)

/-- LEFT JOIN row multiplicity: no match yields a single NULL-extended row,
otherwise one row per matching dimension row. -/
def leftOpt {α : Type} (l : List α) : List (Option α) :=
  if l.isEmpty then [none] else l.map some

/-- The SELECT list of the fact build (lines 208-227): COALESCE defaults for
every nullable non-key column. -/
def mkFactRow (r : RawRow) (tid lid mid : Option Nat) : FactRow :=
  { earthquake_id := r.event_id,
    time_id := tid,
    location_id := lid,
    magnitude_id := mid,
    event_id := r.event_id,
    depth := r.depth.getD 0,
    depth_category := r.depth_category.getD "Unknown",
    num_stations := r.num_stations.getD 0,
    azimuthal_gap := r.azimuthal_gap.getD 0,
    min_distance := r.min_distance.getD 0,
    rms := r.rms.getD 0,
    horizontal_error := r.horizontal_error.getD 0,
    depth_error := r.depth_error.getD 0,
    magnitude_error := r.magnitude_error.getD 0,
    network := r.network.getD "Unknown",
    status := r.status.getD "Unknown",
    event_type := r.event_type.getD "Unknown",
    moon_phase := r.moon_phase.getD 0,
    moon_phase_name := r.moon_phase_name.getD "Unknown" }

/-- Fact rows produced for one raw row by the three chained LEFT JOINs. -/
def factRowsFor (dt : List (Nat × TimeKey)) (dl : List (Nat × LocKey))
    (dm : List (Nat × MagKey)) (r : RawRow) : List FactRow :=
  (leftOpt (timeMatches dt r)).flatMap (fun t =>
    (leftOpt (locMatches dl r)).flatMap (fun l =>
      (leftOpt (magMatches dm r)).map (fun m =>
        mkFactRow r (t.map Prod.fst) (l.map Prod.fst) (m.map Prod.fst))))

/-- The fact table as first created (CREATE TABLE ... SELECT, lines 206-246),
before the conditional dedup pass. -/
def fact_pre (raw : List RawRow) : List FactRow :=
  (raw.filter prereqOk).flatMap
    (factRowsFor (create_dim_time raw) (create_dim_location raw) (create_dim_magnitude raw))

/-- `COUNT(*) - COUNT(DISTINCT event_id)` (lines 253-257). -/
def duplicateCount (l : List FactRow) : Nat :=
  l.length - ((l.map (fun f => f.event_id)).dedup).length

/-- `SELECT DISTINCT ON (event_id) * ... ORDER BY event_id` (lines 264-269):
one surviving row per event_id, deterministically the first row of each id
group in table order (the SQL additionally presents the result ordered by
event_id; a table is a row multiset, so the model keeps table order). -/
def dedupFact (l : List FactRow) : List FactRow :=
  dedupKeyed (fun f => f.event_id) [] l

/-- `OLAPSchema._create_fact_earthquakes` (lines 189-273): build the joined
table, then deduplicate on `event_id` only when duplicates were counted. -/
def create_fact_earthquakes (raw : List RawRow) : List FactRow :=
  let pre := fact_pre raw
  if 0 < duplicateCount pre then dedupFact pre else pre

/-- `CASE day_of_week WHEN 1 .. 7` (no ELSE: out of range yields NULL). -/
def dayName : Option Int → Option String
  | some 1 => some "Monday"
  | some 2 => some "Tuesday"
  | some 3 => some "Wednesday"
  | some 4 => some "Thursday"
  | some 5 => some "Friday"
  | some 6 => some "Saturday"
  | some 7 => some "Sunday"
  | _ => none

/-- Season classification; a NULL month falls through to the ELSE branch. -/
def seasonOf (m : Option Int) : String :=
  if m = some 12 ∨ m = some 1 ∨ m = some 2 then "Winter"
  else if m = some 3 ∨ m = some 4 ∨ m = some 5 then "Spring"
  else if m = some 6 ∨ m = some 7 ∨ m = some 8 then "Summer"
  else "Fall"

/-- `day_of_week IN (6, 7)`; NULL is not in the list. -/
def isWeekend (d : Option Int) : Bool :=
  decide (d = some 6 ∨ d = some 7)

def hemisphereNS (la : ℚ) : String := if 0 ≤ la then "Northern" else "Southern"

def hemisphereEW (lo : ℚ) : String := if 0 ≤ lo then "Eastern" else "Western"

def climateZone (la : ℚ) : String :=
  if -23.5 ≤ la ∧ la ≤ 23.5 then "Tropical"
  else if (23.5 ≤ la ∧ la ≤ 66.5) ∨ (-66.5 ≤ la ∧ la ≤ -23.5) then "Temperate"
  else "Polar"

/-- `DATE_TRUNC(day, datetime)` over the abstract epoch-second instant. -/
def dateOf (t : Int) : Int := Int.fdiv t 86400

/-! ### Cube materializer (`src/olap/cube.py`)

Each cube is `fact ⋈ dims` grouped by a fixed attribute tuple with additive
aggregates.  Surrogate ids are unique in each dimension, so the inner join
resolves by `lookupId`.  The float columns `total_energy` and
`daily_total_energy` (sums of `energy_joules`, itself a deterministic function
of `magnitude`) stay outside the rational model; every other SELECT column is
modelled. -/
def lookupId {κ : Type} (d : List (Nat × κ)) (i : Nat) : Option κ :=
  (d.find? (fun p => decide (p.1 = i))).map Prod.snd

def firstDedup {κ : Type} [DecidableEq κ] (l : List κ) : List κ :=
  dedupKeyed (fun k => k) [] l

/-- `GROUP BY key`: one group per distinct key, in first-appearance order
(SQL leaves group order unspecified; any deterministic order is a faithful
presentation of the result multiset). -/
def groupsBy {α κ : Type} [DecidableEq κ] (key : α → κ) (l : List α) :
    List (κ × List α) :=
  (firstDedup (l.map key)).map (fun k => (k, l.filter (fun x => decide (key x = k))))

def qSum (l : List ℚ) : ℚ := l.sum

def qAvg (l : List ℚ) : ℚ := l.sum / (l.length : ℚ)

def qMin (l : List ℚ) : ℚ :=
  match l with
  | [] => 0
  | x :: xs => xs.foldl min x

def qMax (l : List ℚ) : ℚ :=
  match l with
  | [] => 0
  | x :: xs => xs.foldl max x

/-- `fact JOIN dim_time JOIN dim_magnitude` on surrogate ids. -/
def joinTM (fact : List FactRow) (dt : List (Nat × TimeKey))
    (dm : List (Nat × MagKey)) : List (FactRow × TimeKey × MagKey) :=
  fact.filterMap (fun f =>
    match f.time_id.bind (lookupId dt), f.magnitude_id.bind (lookupId dm) with
    | some tk, some mk => some (f, tk, mk)
    | _, _ => none)

/-- `fact JOIN dim_location JOIN dim_magnitude` on surrogate ids. -/
def joinLM (fact : List FactRow) (dl : List (Nat × LocKey))
    (dm : List (Nat × MagKey)) : List (FactRow × LocKey × MagKey) :=
  fact.filterMap (fun f =>
    match f.location_id.bind (lookupId dl), f.magnitude_id.bind (lookupId dm) with
    | some lk, some mk => some (f, lk, mk)
    | _, _ => none)

/-- `fact JOIN dim_time JOIN dim_magnitude JOIN dim_location`. -/
def joinTML (fact : List FactRow) (dt : List (Nat × TimeKey))
    (dm : List (Nat × MagKey)) (dl : List (Nat × LocKey)) :
    List (FactRow × TimeKey × MagKey × LocKey) :=
  fact.filterMap (fun f =>
    match f.time_id.bind (lookupId dt), f.magnitude_id.bind (lookupId dm),
        f.location_id.bind (lookupId dl) with
    | some tk, some mk, some lk => some (f, tk, mk, lk)
    | _, _, _ => none)

/-- `fact JOIN dim_magnitude`. -/
def joinFM (fact : List FactRow) (dm : List (Nat × MagKey)) :
    List (FactRow × MagKey) :=
  fact.filterMap (fun f =>
    match f.magnitude_id.bind (lookupId dm) with
    | some mk => some (f, mk)
    | none => none)

structure TMKey where
  year : Option Int
  month : Option Int
  day_name : Option String
  hour : Option Int
  season : String
  is_weekend : Bool
  magnitude_category : Option String
  deriving DecidableEq

structure TMRow where
  year : Option Int
  month : Option Int
  day_name : Option String
  hour : Option Int
  season : String
  is_weekend : Bool
  magnitude_category : Option String
  event_count : Nat
  avg_magnitude : ℚ
  min_magnitude : ℚ
  max_magnitude : ℚ
  avg_depth : ℚ
  deriving DecidableEq

/-- `OLAPCube._create_time_magnitude_cube` (cube.py lines 40-75). -/
def create_time_magnitude_cube (fact : List FactRow) (dt : List (Nat × TimeKey))
    (dm : List (Nat × MagKey)) : List TMRow :=
  (groupsBy (fun x =>
      ({ year := x.2.1.year, month := x.2.1.month,
         day_name := dayName x.2.1.day_of_week, hour := x.2.1.hour,
         season := seasonOf x.2.1.month, is_weekend := isWeekend x.2.1.day_of_week,
         magnitude_category := x.2.2.magnitude_category } : TMKey))
      (joinTM fact dt dm)).map
    (fun g =>
      { year := g.1.year, month := g.1.month, day_name := g.1.day_name,
        hour := g.1.hour, season := g.1.season, is_weekend := g.1.is_weekend,
        magnitude_category := g.1.magnitude_category,
        event_count := g.2.length,
        avg_magnitude := qAvg (g.2.map (fun x => x.2.2.magnitude)),
        min_magnitude := qMin (g.2.map (fun x => x.2.2.magnitude)),
        max_magnitude := qMax (g.2.map (fun x => x.2.2.magnitude)),
        avg_depth := qAvg (g.2.map (fun x => x.1.depth)) })

structure LMRow where
  region : String
  hemisphere_ns : String
  hemisphere_ew : String
  climate_zone : String
  magnitude_category : Option String
  event_count : Nat
  avg_magnitude : ℚ
  max_magnitude : ℚ
  avg_depth : ℚ
  center_latitude : ℚ
  center_longitude : ℚ
  deriving DecidableEq

/-- `OLAPCube._create_location_magnitude_cube` (cube.py lines 77-110). -/
def create_location_magnitude_cube (fact : List FactRow) (dl : List (Nat × LocKey))
    (dm : List (Nat × MagKey)) : List LMRow :=
  (groupsBy (fun x => (x.2.1.region, hemisphereNS x.2.1.latitude,
      hemisphereEW x.2.1.longitude, climateZone x.2.1.latitude,
      x.2.2.magnitude_category)) (joinLM fact dl dm)).map
    (fun g =>
      { region := g.1.1, hemisphere_ns := g.1.2.1, hemisphere_ew := g.1.2.2.1,
        climate_zone := g.1.2.2.2.1, magnitude_category := g.1.2.2.2.2,
        event_count := g.2.length,
        avg_magnitude := qAvg (g.2.map (fun x => x.2.2.magnitude)),
        max_magnitude := qMax (g.2.map (fun x => x.2.2.magnitude)),
        avg_depth := qAvg (g.2.map (fun x => x.1.depth)),
        center_latitude := qAvg (g.2.map (fun x => x.2.1.latitude)),
        center_longitude := qAvg (g.2.map (fun x => x.2.1.longitude)) })

structure DARow where
  depth_category : String
  magnitude_category : Option String
  season : String
  event_count : Nat
  avg_depth : ℚ
  avg_magnitude : ℚ
  avg_stations : ℚ
  avg_gap : ℚ
  avg_horizontal_error : ℚ
  avg_depth_error : ℚ
  deriving DecidableEq

/-- `OLAPCube._create_depth_analysis_cube` (cube.py lines 112-142). -/
def create_depth_analysis_cube (fact : List FactRow) (dm : List (Nat × MagKey))
    (dt : List (Nat × TimeKey)) : List DARow :=
  (groupsBy (fun x => (x.1.depth_category, x.2.2.magnitude_category,
      seasonOf x.2.1.month)) (joinTM fact dt dm)).map
    (fun g =>
      { depth_category := g.1.1, magnitude_category := g.1.2.1, season := g.1.2.2,
        event_count := g.2.length,
        avg_depth := qAvg (g.2.map (fun x => x.1.depth)),
        avg_magnitude := qAvg (g.2.map (fun x => x.2.2.magnitude)),
        avg_stations := qAvg (g.2.map (fun x => (x.1.num_stations : ℚ))),
        avg_gap := qAvg (g.2.map (fun x => x.1.azimuthal_gap)),
        avg_horizontal_error := qAvg (g.2.map (fun x => x.1.horizontal_error)),
        avg_depth_error := qAvg (g.2.map (fun x => x.1.depth_error)) })

structure TTRow where
  date : Int
  year : Option Int
  month : Option Int
  day_of_week : Option Int
  daily_event_count : Nat
  daily_avg_magnitude : ℚ
  daily_max_magnitude : ℚ
  affected_regions : Nat
  deriving DecidableEq

def ttRowLe (a b : TTRow) : Bool := decide (a.date ≤ b.date)

/-- `OLAPCube._create_temporal_trends_cube` (cube.py lines 144-175),
`ORDER BY t.date`. -/
def create_temporal_trends_cube (fact : List FactRow) (dt : List (Nat × TimeKey))
    (dm : List (Nat × MagKey)) (dl : List (Nat × LocKey)) : List TTRow :=
  sortBy ttRowLe
    ((groupsBy (fun x => (dateOf x.2.1.datetime, x.2.1.year, x.2.1.month,
        x.2.1.day_of_week)) (joinTML fact dt dm dl)).map
      (fun g =>
        { date := g.1.1, year := g.1.2.1, month := g.1.2.2.1,
          day_of_week := g.1.2.2.2,
          daily_event_count := g.2.length,
          daily_avg_magnitude := qAvg (g.2.map (fun x => x.2.2.1.magnitude)),
          daily_max_magnitude := qMax (g.2.map (fun x => x.2.2.1.magnitude)),
          affected_regions := ((g.2.map (fun x => x.2.2.2.region)).dedup).length }))

/-- The magnitude bucket CASE of the moon-phase cube. -/
def magnitudeGroup (m : ℚ) : String :=
  if m < 4 then "1-3"
  else if 4 ≤ m ∧ m < 5 then "4"
  else if 5 ≤ m ∧ m < 6 then "5"
  else if 6 ≤ m ∧ m < 8 then "6-7"
  else "8-9"

structure MPRow where
  moon_phase_name : String
  moon_phase : ℚ
  magnitude_group : String
  event_count : Nat
  avg_magnitude : ℚ
  max_magnitude : ℚ
  avg_depth : ℚ
  deriving DecidableEq

def mpRowLe (a b : MPRow) : Bool := decide (a.moon_phase ≤ b.moon_phase)

/-- `OLAPCube._create_moon_phase_cube` (cube.py lines 177-210),
`ORDER BY f.moon_phase`. -/
def create_moon_phase_cube (fact : List FactRow) (dm : List (Nat × MagKey)) :
    List MPRow :=
  sortBy mpRowLe
    ((groupsBy (fun x => (x.1.moon_phase_name, x.1.moon_phase,
        magnitudeGroup x.2.magnitude)) (joinFM fact dm)).map
      (fun g =>
        { moon_phase_name := g.1.1, moon_phase := g.1.2.1,
          magnitude_group := g.1.2.2,
          event_count := g.2.length,
          avg_magnitude := qAvg (g.2.map (fun x => x.2.magnitude)),
          max_magnitude := qMax (g.2.map (fun x => x.2.magnitude)),
          avg_depth := qAvg (g.2.map (fun x => x.1.depth)) }))

/-! ### Warehouse state

A `DB` holds the named relations of the analytical store; every build step is
`CREATE OR REPLACE` / drop-and-recreate, i.e. overwrites its output fields as
a function of its input tables only. -/
structure DB where
  raw : List RawRow
  dim_time : List (Nat × TimeKey)
  dim_location : List (Nat × LocKey)
  dim_magnitude : List (Nat × MagKey)
  fact_earthquakes : List FactRow
  cube_time_magnitude : List TMRow
  cube_location_magnitude : List LMRow
  cube_depth_analysis : List DARow
  cube_temporal_trends : List TTRow
  cube_moon_phase : List MPRow

/-- `OLAPSchema.create_star_schema` (schema.py lines 23-40): rebuild the three
dimensions and the fact table from `raw_earthquakes`. -/
def create_star_schema (db : DB) : DB :=
  { db with
    dim_time := create_dim_time db.raw,
    dim_location := create_dim_location db.raw,
    dim_magnitude := create_dim_magnitude db.raw,
    fact_earthquakes := create_fact_earthquakes db.raw }

/-- `OLAPCube.create_cubes` (cube.py lines 23-38): rebuild the five cubes from
the fact and dimension tables. -/
def create_cubes (db : DB) : DB :=
  { db with
    cube_time_magnitude :=
      create_time_magnitude_cube db.fact_earthquakes db.dim_time db.dim_magnitude,
    cube_location_magnitude :=
      create_location_magnitude_cube db.fact_earthquakes db.dim_location db.dim_magnitude,
    cube_depth_analysis :=
      create_depth_analysis_cube db.fact_earthquakes db.dim_magnitude db.dim_time,
    cube_temporal_trends :=
      create_temporal_trends_cube db.fact_earthquakes db.dim_time db.dim_magnitude db.dim_location,
    cube_moon_phase :=
      create_moon_phase_cube db.fact_earthquakes db.dim_magnitude }

/-- One OLAP rebuild pass of the orchestrator: star schema, then cubes. -/
def rebuild_olap (db : DB) : DB := create_cubes (create_star_schema db)

/-- Live store of the spec example behind C5: non-empty backing tables exist
only for 2020 and 2023. -/
def storeC5 : Int → Option Nat := fun y => if y = 2020 ∨ y = 2023 then some 5 else none

/-- Tracker metadata of the spec example behind C5: claims 2020, 2021, 2023. -/
def mdC5 : Metadata :=
  { loaded_years := [2020, 2021, 2023],
    year_details := [(2020, 10), (2021, 12), (2023, 9)] }

def dbWitnessA : DB :=
  { raw := [], dim_time := [], dim_location := [], dim_magnitude := [],
    fact_earthquakes := [], cube_time_magnitude := [],
    cube_location_magnitude := [], cube_depth_analysis := [],
    cube_temporal_trends := [], cube_moon_phase := [] }

def tkWitness : TimeKey :=
  { datetime := 0, year := none, month := none, day := none, hour := none,
    day_of_week := none }

def mpWitness : MPRow :=
  { moon_phase_name := "Full Moon", moon_phase := 1/2, magnitude_group := "4",
    event_count := 1, avg_magnitude := 4, max_magnitude := 4, avg_depth := 10 }

def dbWitnessB : DB :=
  { raw := [], dim_time := [(7, tkWitness)], dim_location := [],
    dim_magnitude := [], fact_earthquakes := [], cube_time_magnitude := [],
    cube_location_magnitude := [], cube_depth_analysis := [],
    cube_temporal_trends := [], cube_moon_phase := [mpWitness] }

/-- Concrete raw row behind the C2 counterexample: passes the fact
prerequisites but has a NULL `magnitude_category`, so the magnitude join
misses (NULL never equals NULL under SQL join equality). -/
def rawRowC2 : RawRow :=
  { event_id := "ev1", datetime := some 100, year := some 2020, month := some 5,
    day := some 1, hour := some 3, day_of_week := some 2, latitude := some 10,
    longitude := some 20, place := some "Somewhere", region := some "Region",
    magnitude := some 5, magnitude_type := some "ml", magnitude_category := none,
    depth := some 10, depth_category := some "Shallow", num_stations := none,
    azimuthal_gap := none, min_distance := none, rms := none,
    horizontal_error := none, depth_error := none, magnitude_error := none,
    network := some "us", status := some "reviewed",
    event_type := some "earthquake", moon_phase := none,
    moon_phase_name := none }

/-- First raw row of the C3 example (event usgs001, depth 10). -/
def rowC3a : RawRow :=
  { event_id := "usgs001", datetime := some 100, year := some 2020,
    month := some 1, day := some 1, hour := some 0, day_of_week := some 3,
    latitude := some 10, longitude := some 20, place := some "A",
    region := some "A", magnitude := some 5, magnitude_type := some "ml",
    magnitude_category := some "Moderate", depth := some 10,
    depth_category := some "Shallow", num_stations := some 4,
    azimuthal_gap := some 1, min_distance := some 1, rms := some 1,
    horizontal_error := some 1, depth_error := some 1, magnitude_error := some 1,
    network := some "us", status := some "reviewed",
    event_type := some "earthquake", moon_phase := some 0,
    moon_phase_name := some "New Moon" }

/-- Second raw row of the C3 example (event usgs002). -/
def rowC3b : RawRow :=
  { rowC3a with
    event_id := "usgs002", datetime := some 200,
    latitude := some 30, longitude := some 40, magnitude := some 4,
    magnitude_category := some "Light" }

/-- The C3 example input: rows 1 and 3 share event_id usgs001 but differ in
depth. -/
def rawC3 : List RawRow := [rowC3a, rowC3b, { rowC3a with depth := some 30 }]

/-- Raw row behind the C10 witness: prerequisites present, every other
nullable column NULL. -/
def rowC10 : RawRow :=
  { event_id := "ev10", datetime := some 50, year := none, month := none,
    day := none, hour := none, day_of_week := none, latitude := some 1,
    longitude := some 2, place := none, region := none, magnitude := some 4,
    magnitude_type := none, magnitude_category := none, depth := none,
    depth_category := none, num_stations := none, azimuthal_gap := none,
    min_distance := none, rms := none, horizontal_error := none,
    depth_error := none, magnitude_error := none, network := none,
    status := none, event_type := none, moon_phase := none,
    moon_phase_name := none }

/-- A valid raw row for the C8 witness. -/
def rowC8good : RawRow :=
  { event_id := "g1", datetime := some 100, year := some 2020, month := some 1,
    day := some 1, hour := some 0, day_of_week := some 3, latitude := some 10,
    longitude := some 20, place := some "A", region := some "A",
    magnitude := some 5, magnitude_type := some "ml",
    magnitude_category := some "Moderate", depth := some 10,
    depth_category := some "Shallow", num_stations := some 4,
    azimuthal_gap := some 1, min_distance := some 1, rms := some 1,
    horizontal_error := some 1, depth_error := some 1, magnitude_error := some 1,
    network := some "us", status := some "reviewed",
    event_type := some "earthquake", moon_phase := some 0,
    moon_phase_name := some "New Moon" }

/-- The invalid raw row for the C8 witness: latitude 95. -/
def rowC8bad : RawRow :=
  { rowC8good with event_id := "b1", latitude := some 95 }

/-- The validation bounds of the C8 witness (the configured defaults). -/
def cfgC8 : ValidationCfg :=
  { min_magnitude := -2, max_magnitude := 10, min_depth := -10, max_depth := 1000 }

/-! ## Theorems -/

theorem insertLe_perm {α : Type} (le : α → α → Bool) (x : α) (l : List α) :
    List.Perm (insertLe le x l) (x :: l) := by
  induction l with
  | nil => simp [insertLe]
  | cons y ys ih =>
    by_cases h : le x y
    · simp [insertLe, h]
    · simp only [insertLe, h, if_neg, Bool.false_eq_true, ite_false]
      exact (ih.cons y).trans (List.Perm.swap x y ys)

theorem sortBy_perm {α : Type} (le : α → α → Bool) (l : List α) :
    List.Perm (sortBy le l) l := by
  induction l with
  | nil => simp [sortBy]
  | cons x xs ih => exact (insertLe_perm le x (sortBy le xs)).trans (ih.cons x)

theorem mem_sortBy {α : Type} (le : α → α → Bool) (l : List α) (a : α) :
    a ∈ sortBy le l ↔ a ∈ l :=
  (sortBy_perm le l).mem_iff

theorem length_sortBy {α : Type} (le : α → α → Bool) (l : List α) :
    (sortBy le l).length = l.length :=
  (sortBy_perm le l).length_eq

theorem nodup_sortBy {α : Type} (le : α → α → Bool) (l : List α) (h : l.Nodup) :
    (sortBy le l).Nodup :=
  ((sortBy_perm le l).nodup_iff).mpr h

theorem pairwise_insertLe {α : Type} (le : α → α → Bool)
    (htot : ∀ a b, le a b = true ∨ le b a = true)
    (htrans : ∀ a b c, le a b = true → le b c = true → le a c = true)
    (x : α) (l : List α) (hl : List.Pairwise (fun a b => le a b = true) l) :
    List.Pairwise (fun a b => le a b = true) (insertLe le x l) := by
  induction l with
  | nil => simp [insertLe]
  | cons y ys ih =>
    obtain ⟨hy, hys⟩ := List.pairwise_cons.mp hl
    by_cases h : le x y
    · simp only [insertLe, h, if_true]
      refine List.Pairwise.cons ?_ (List.Pairwise.cons hy hys)
      intro a ha
      rcases List.mem_cons.mp ha with rfl | ha2
      · exact h
      · exact htrans x y a h (hy a ha2)
    · have hyx : le y x = true := by
        rcases htot x y with h1 | h1
        · exact absurd h1 h
        · exact h1
      simp only [insertLe, h, Bool.false_eq_true, ite_false]
      refine List.Pairwise.cons ?_ (ih hys)
      intro a ha
      have ha2 := (insertLe_perm le x ys).mem_iff.mp ha
      rcases List.mem_cons.mp ha2 with rfl | ha3
      · exact hyx
      · exact hy a ha3

theorem sorted_sortBy {α : Type} (le : α → α → Bool)
    (htot : ∀ a b, le a b = true ∨ le b a = true)
    (htrans : ∀ a b c, le a b = true → le b c = true → le a c = true)
    (l : List α) : List.Pairwise (fun a b => le a b = true) (sortBy le l) := by
  induction l with
  | nil => simp [sortBy]
  | cons x xs ih => exact pairwise_insertLe le htot htrans x (sortBy le xs) ih

theorem sortBy_eq_self {α : Type} (le : α → α → Bool) (l : List α)
    (hl : List.Pairwise (fun a b => le a b = true) l) : sortBy le l = l := by
  induction l with
  | nil => rfl
  | cons x xs ih =>
    obtain ⟨hx, hxs⟩ := List.pairwise_cons.mp hl
    have hxs2 : sortBy le xs = xs := ih hxs
    show insertLe le x (sortBy le xs) = x :: xs
    rw [hxs2]
    cases xs with
    | nil => rfl
    | cons y ys =>
      have hxy : le x y = true := hx y (List.mem_cons_self y ys)
      simp [insertLe, hxy]

theorem dedupKeyed_sublist {α κ : Type} [DecidableEq κ] (key : α → κ)
    (seen : List κ) (l : List α) : (dedupKeyed key seen l).Sublist l := by
  induction l generalizing seen with
  | nil => simp [dedupKeyed]
  | cons x xs ih =>
    by_cases h : key x ∈ seen
    · simp only [dedupKeyed, h, if_true]
      exact (ih seen).cons x
    · simp only [dedupKeyed, h, if_false]
      exact (ih (key x :: seen)).cons₂ x

theorem dedupKeyed_key_not_mem_seen {α κ : Type} [DecidableEq κ] (key : α → κ)
    (seen : List κ) (l : List α) (a : α) (ha : a ∈ dedupKeyed key seen l) :
    key a ∉ seen := by
  induction l generalizing seen with
  | nil => simp [dedupKeyed] at ha
  | cons x xs ih =>
    by_cases h : key x ∈ seen
    · simp only [dedupKeyed, h, if_true] at ha
      exact ih seen ha
    · simp only [dedupKeyed, h, if_false, List.mem_cons] at ha
      rcases ha with rfl | ha
      · exact h
      · have := ih (key x :: seen) ha
        intro hmem
        exact this (List.mem_cons_of_mem _ hmem)

theorem nodup_map_key_dedupKeyed {α κ : Type} [DecidableEq κ] (key : α → κ)
    (seen : List κ) (l : List α) :
    ((dedupKeyed key seen l).map key).Nodup := by
  induction l generalizing seen with
  | nil => simp [dedupKeyed]
  | cons x xs ih =>
    by_cases h : key x ∈ seen
    · simp only [dedupKeyed, h, if_true]
      exact ih seen
    · simp only [dedupKeyed, h, if_false, List.map_cons, List.nodup_cons]
      refine ⟨?_, ih (key x :: seen)⟩
      intro hmem
      rcases List.mem_map.mp hmem with ⟨a, ha, hkey⟩
      have := dedupKeyed_key_not_mem_seen key (key x :: seen) xs a ha
      exact this (by simp [hkey])

theorem mem_map_key_dedupKeyed {α κ : Type} [DecidableEq κ] (key : α → κ)
    (seen : List κ) (l : List α) (k : κ) (hk : k ∉ seen) :
    k ∈ (dedupKeyed key seen l).map key ↔ k ∈ l.map key := by
  induction l generalizing seen with
  | nil => simp [dedupKeyed]
  | cons x xs ih =>
    by_cases h : key x ∈ seen
    · have hne : k ≠ key x := fun he => hk (he ▸ h)
      simp only [dedupKeyed, h, if_true, List.map_cons, List.mem_cons]
      rw [ih seen hk]
      simp [hne]
    · simp only [dedupKeyed, h, if_false, List.map_cons, List.mem_cons]
      by_cases hkx : k = key x
      · simp [hkx]
      · have hk2 : k ∉ key x :: seen := by
          intro hmem
          rcases List.mem_cons.mp hmem with he | hm
          · exact hkx he
          · exact hk hm
        rw [ih (key x :: seen) hk2]

theorem transform_rows_eq (cfg : ValidationCfg) (df : List RawRow) :
    transform_rows cfg df =
      (df.filter (survivesTransform cfg)).map (fun r => enrichRow (fillRow r)) := by
  unfold transform_rows validate_data clean_data
  rw [List.filter_map, List.filter_map, List.filter_map, List.filter_filter,
    List.filter_filter, List.filter_filter, List.map_map]
  congr 1
  apply List.filter_congr
  intro r _
  simp only [survivesTransform, Function.comp]
  cases h1 : criticalOk r <;>
    cases h2 : inRangeQ (fillRow r).magnitude cfg.min_magnitude cfg.max_magnitude <;>
      cases h3 : inRangeQ (fillRow r).depth cfg.min_depth cfg.max_depth <;>
        cases h4 : inRangeQ (fillRow r).latitude (-90) 90 &&
            inRangeQ (fillRow r).longitude (-180) 180 <;>
          simp [h1, h2, h3, h4]

/-! ### Tracker lemmas -/
theorem intLe_total (a b : Int) : intLe a b = true ∨ intLe b a = true := by
  simp only [intLe, decide_eq_true_eq]
  omega

theorem intLe_trans (a b c : Int) (h1 : intLe a b = true) (h2 : intLe b c = true) :
    intLe a c = true := by
  simp only [intLe, decide_eq_true_eq] at h1 h2 ⊢
  omega

theorem mem_yearRange (s e y : Int) : y ∈ yearRange s e ↔ s ≤ y ∧ y ≤ e := by
  simp only [yearRange, List.mem_map, List.mem_range]
  constructor
  · rintro ⟨i, hi, rfl⟩
    omega
  · rintro ⟨h1, h2⟩
    refine ⟨(y - s).toNat, ?_, ?_⟩ <;> omega

theorem pairwise_yearRange (s e : Int) : List.Pairwise (· < ·) (yearRange s e) := by
  unfold yearRange
  refine List.Pairwise.map _ ?_ (List.pairwise_lt_range _)
  intro a b hab
  omega

theorem get_years_to_load_eq (s e : Int) (md : Metadata) :
    get_years_to_load s e md =
      (yearRange s e).filter (fun y => y ∉ md.loaded_years) := by
  unfold get_years_to_load
  apply sortBy_eq_self
  have hp : List.Pairwise (· < ·)
      ((yearRange s e).filter (fun y => y ∉ md.loaded_years)) :=
    List.Pairwise.sublist (List.filter_sublist _) (pairwise_yearRange s e)
  exact hp.imp (by intro a b h; simp only [intLe, decide_eq_true_eq]; omega)

theorem validate_fst_mem (store : Int → Option Nat) (md : Metadata) (y : Int) :
    y ∈ (validate_loaded_years store md).1 ↔
      y ∈ md.loaded_years ∧ probeOk store y = true := by
  simp [validate_loaded_years, mem_sortBy, List.mem_filter, List.mem_dedup]

theorem validate_snd_loaded_mem (store : Int → Option Nat) (md : Metadata) (y : Int) :
    y ∈ (validate_loaded_years store md).2.loaded_years ↔
      y ∈ md.loaded_years ∧ probeOk store y = true := by
  by_cases h : ((md.loaded_years.dedup).filter (fun z => ! probeOk store z)).isEmpty
  · have hall : ∀ z ∈ md.loaded_years.dedup, probeOk store z = true := by
      intro z hz
      have h2 := List.filter_eq_nil_iff.mp (List.isEmpty_iff.mp h) z hz
      simpa using h2
    simp only [validate_loaded_years, h, if_true]
    constructor
    · intro hy
      exact ⟨hy, hall y (List.mem_dedup.mpr hy)⟩
    · exact And.left
  · simp only [validate_loaded_years, h, if_false]
    simp [mem_sortBy, List.mem_filter, List.mem_dedup]

theorem validate_snd_details (store : Int → Option Nat) (md : Metadata) (y : Int)
    (hy : y ∈ md.loaded_years) (hp : probeOk store y = false) :
    ∀ d : Nat, (y, d) ∉ (validate_loaded_years store md).2.year_details := by
  intro d
  have hmem : y ∈ (md.loaded_years.dedup).filter (fun z => ! probeOk store z) := by
    simp [List.mem_filter, List.mem_dedup, hy, hp]
  have hne : ¬ ((md.loaded_years.dedup).filter (fun z => ! probeOk store z)).isEmpty := by
    intro h
    rw [List.isEmpty_iff] at h
    rw [h] at hmem
    simp at hmem
  simp only [validate_loaded_years, hne, if_false]
  intro hin
  have h2 := (List.mem_filter.mp hin).2
  simp only [decide_eq_true_eq] at h2
  exact h2 hmem

theorem validate_fst_sorted (store : Int → Option Nat) (md : Metadata) :
    List.Pairwise (fun a b : Int => a ≤ b) (validate_loaded_years store md).1 := by
  have h := sorted_sortBy intLe intLe_total intLe_trans
    ((md.loaded_years.dedup).filter (fun y => probeOk store y))
  exact h.imp (by intro a b hab; simpa [intLe] using hab)

/-- C1: after metadata validation against the live store, the
partitions-to-process operation on a requested contiguous year range returns
exactly the requested years not in the validated loaded set, as an ascending
duplicate-free list. -/
theorem partitions_to_process_spec (store : Int → Option Nat) (md : Metadata)
    (s e : Int) :
    (∀ y : Int, y ∈ get_years_to_load s e (validate_loaded_years store md).2 ↔
       (s ≤ y ∧ y ≤ e ∧ y ∉ (validate_loaded_years store md).1))
    ∧ List.Pairwise (· < ·) (get_years_to_load s e (validate_loaded_years store md).2)
    ∧ (get_years_to_load s e (validate_loaded_years store md).2).Nodup := by
  refine ⟨?_, ?_, ?_⟩
  · intro y
    rw [get_years_to_load_eq, List.mem_filter]
    simp only [mem_yearRange, decide_eq_true_eq]
    rw [and_assoc]
    constructor
    · rintro ⟨h1, h2, h3⟩
      refine ⟨h1, h2, ?_⟩
      rw [validate_fst_mem]
      rw [validate_snd_loaded_mem] at h3
      exact h3
    · rintro ⟨h1, h2, h3⟩
      refine ⟨h1, h2, ?_⟩
      rw [validate_snd_loaded_mem]
      rw [validate_fst_mem] at h3
      exact h3
  · rw [get_years_to_load_eq]
    exact List.Pairwise.sublist (List.filter_sublist _) (pairwise_yearRange s e)
  · rw [get_years_to_load_eq]
    have hp : List.Pairwise (· < ·)
        ((yearRange s e).filter (fun y => y ∉ (validate_loaded_years store md).2.loaded_years)) :=
      List.Pairwise.sublist (List.filter_sublist _) (pairwise_yearRange s e)
    exact hp.imp (fun h => ne_of_lt h)

/-- C4: `validate_loaded_years` returns exactly the claimed years whose
non-empty-table probe succeeded (sorted), the corrected metadata keeps exactly
those years, and a claimed year whose probe failed is purged from
`year_details` as well; a probe failure is absorbed (the probe is modelled as
an `Option`-valued observation, never an exception reaching the caller). -/
theorem validate_loaded_years_spec (store : Int → Option Nat) (md : Metadata)
    (y : Int) :
    (y ∈ (validate_loaded_years store md).1 ↔
       y ∈ md.loaded_years ∧ probeOk store y = true)
    ∧ (y ∈ (validate_loaded_years store md).2.loaded_years ↔
        y ∈ md.loaded_years ∧ probeOk store y = true)
    ∧ (y ∈ md.loaded_years → probeOk store y = false →
        ∀ d : Nat, (y, d) ∉ (validate_loaded_years store md).2.year_details)
    ∧ List.Pairwise (fun a b : Int => a ≤ b) (validate_loaded_years store md).1 :=
  ⟨validate_fst_mem store md y, validate_snd_loaded_mem store md y,
   fun hy hp => validate_snd_details store md y hy hp,
   validate_fst_sorted store md⟩

theorem validate_loaded_years_spec_witness :
    ∀ d : Nat, ((2021 : Int), d) ∉ (validate_loaded_years
      (fun y => if y = 2020 then some 3 else none)
      { loaded_years := [2020, 2021],
        year_details := [(2020, 3), (2021, 5)] }).2.year_details :=
  (validate_loaded_years_spec (fun y => if y = 2020 then some 3 else none)
    { loaded_years := [2020, 2021], year_details := [(2020, 3), (2021, 5)] }
    2021).2.2.1 (by decide) (by decide)

/-- C5 counterexample: on the claimed metadata [2020, 2021, 2023] with live
tables only for 2020 and 2023, validate() does return [2020, 2023], but the
subsequent summary reports gaps different from [(2022, 2022)] — validation has
purged 2021, so the maximal missing range between 2020 and 2023 is
(2021, 2022). -/
theorem gaps_example_counterexample :
    (validate_loaded_years storeC5 mdC5).1 = [2020, 2023]
    ∧ (get_summary (validate_loaded_years storeC5 mdC5).2).gaps ≠ [(2022, 2022)] := by
  decide

/-- C5 amended: validate() returns {2020, 2023} and the subsequent summary
reports gaps equal to [(2021, 2022)], the maximal missing-year range strictly
between the minimum and maximum loaded year. -/
theorem gaps_example_amended :
    (validate_loaded_years storeC5 mdC5).1 = [2020, 2023]
    ∧ (get_summary (validate_loaded_years storeC5 mdC5).2).gaps = [(2021, 2022)] := by
  decide

/-- C9 counterexample: on a metadata state whose stored list is unsorted,
marking an already-present year is a strict no-op (the code only re-sorts on
insertion), so the resulting list is not sorted ascending, contradicting the
claim as stated over every metadata state. -/
theorem mark_loaded_sorted_counterexample :
    (mark_year_loaded 3 { loaded_years := [3, 1], year_details := [] }).loaded_years = [3, 1]
    ∧ ¬ List.Pairwise (fun a b : Int => a ≤ b)
        ((mark_year_loaded 3 { loaded_years := [3, 1], year_details := [] }).loaded_years) := by
  decide

/-- C9 amended: `mark_year_loaded` is idempotent on the whole metadata state
and the resulting loaded set is the old set union the new year, for every
state; the result is sorted ascending whenever the previously stored list
was sorted (which every tracker-written state is). -/
theorem mark_year_loaded_spec (y : Int) (md : Metadata) :
    mark_year_loaded y (mark_year_loaded y md) = mark_year_loaded y md
    ∧ (∀ z : Int, z ∈ (mark_year_loaded y md).loaded_years ↔
        z ∈ md.loaded_years ∨ z = y)
    ∧ (List.Pairwise (fun a b : Int => a ≤ b) md.loaded_years →
        List.Pairwise (fun a b : Int => a ≤ b) (mark_year_loaded y md).loaded_years) := by
  refine ⟨?_, ?_, ?_⟩
  · by_cases h : y ∈ md.loaded_years
    · simp [mark_year_loaded, h]
    · have h2 : y ∈ sortBy intLe (md.loaded_years ++ [y]) := by
        rw [mem_sortBy]
        simp
      simp [mark_year_loaded, h, h2]
  · intro z
    by_cases h : y ∈ md.loaded_years
    · simp only [mark_year_loaded, h, if_true]
      constructor
      · exact Or.inl
      · rintro (hz | rfl)
        · exact hz
        · exact h
    · simp only [mark_year_loaded, h, if_false]
      rw [mem_sortBy]
      simp
  · intro hs
    by_cases h : y ∈ md.loaded_years
    · simpa [mark_year_loaded, h] using hs
    · simp only [mark_year_loaded, h, if_false]
      have h2 := sorted_sortBy intLe intLe_total intLe_trans (md.loaded_years ++ [y])
      exact h2.imp (by intro a b hab; simpa [intLe] using hab)

theorem mark_year_loaded_spec_witness :
    List.Pairwise (fun a b : Int => a ≤ b)
      ((mark_year_loaded 2022
        { loaded_years := [2020, 2021], year_details := [] }).loaded_years) :=
  (mark_year_loaded_spec 2022
    { loaded_years := [2020, 2021], year_details := [] }).2.2 (by decide)

/-- C7: for each dimension, the surrogate key column is exactly the dense
range 1..N with no gaps or duplicates, where N is the number of distinct
(coalesced) natural-key tuples of the raw table; keys are assigned by position
in the table sorted by the fixed ORDER BY columns, which is how the dimension
is defined. -/
theorem dim_surrogate_keys_dense (raw : List RawRow) :
    (create_dim_time raw).map Prod.fst = List.range' 1 (time_keys raw).length
    ∧ (create_dim_location raw).map Prod.fst = List.range' 1 (loc_keys raw).length
    ∧ (create_dim_magnitude raw).map Prod.fst = List.range' 1 (mag_keys raw).length := by
  refine ⟨?_, ?_, ?_⟩ <;>
    simp [create_dim_time, create_dim_location, create_dim_magnitude,
      List.enumFrom_map_fst, length_sortBy]

/-- C6: one OLAP rebuild pass (star schema, then cubes) is idempotent, and its
output tables (dimensions including surrogate key assignment, the deduplicated
fact table including which duplicate variant survives, and the five cubes)
depend only on the raw table — every step drops and recreates its outputs, so
rebuilding over an unchanged raw table reproduces identical tables whatever
was in the store before. -/
theorem rebuild_olap_idempotent :
    (∀ db : DB, rebuild_olap (rebuild_olap db) = rebuild_olap db)
    ∧ (∀ db1 db2 : DB, db1.raw = db2.raw →
        (rebuild_olap db1).dim_time = (rebuild_olap db2).dim_time
        ∧ (rebuild_olap db1).dim_location = (rebuild_olap db2).dim_location
        ∧ (rebuild_olap db1).dim_magnitude = (rebuild_olap db2).dim_magnitude
        ∧ (rebuild_olap db1).fact_earthquakes = (rebuild_olap db2).fact_earthquakes
        ∧ (rebuild_olap db1).cube_time_magnitude = (rebuild_olap db2).cube_time_magnitude
        ∧ (rebuild_olap db1).cube_location_magnitude = (rebuild_olap db2).cube_location_magnitude
        ∧ (rebuild_olap db1).cube_depth_analysis = (rebuild_olap db2).cube_depth_analysis
        ∧ (rebuild_olap db1).cube_temporal_trends = (rebuild_olap db2).cube_temporal_trends
        ∧ (rebuild_olap db1).cube_moon_phase = (rebuild_olap db2).cube_moon_phase) := by
  constructor
  · intro db
    rfl
  · intro db1 db2 h
    simp [rebuild_olap, create_cubes, create_star_schema, h]

theorem rebuild_olap_idempotent_witness :
    (rebuild_olap dbWitnessA).fact_earthquakes = (rebuild_olap dbWitnessB).fact_earthquakes :=
  (rebuild_olap_idempotent.2 dbWitnessA dbWitnessB rfl).2.2.2.1

/-! ### Fact table lemmas -/
theorem sqlEqOpt_none_left {α : Type} [DecidableEq α] (b : Option α) :
    sqlEqOpt (none : Option α) b = false := by
  cases b <;> rfl

theorem exists_mem_leftOpt {α : Type} (l : List α) : ∃ x, x ∈ leftOpt l := by
  cases l with
  | nil => exact ⟨none, by simp [leftOpt]⟩
  | cons a as => exact ⟨some a, by simp [leftOpt]⟩

theorem mkFactRow_mem_factRowsFor (dt : List (Nat × TimeKey))
    (dl : List (Nat × LocKey)) (dm : List (Nat × MagKey)) (r : RawRow)
    (t : Option (Nat × TimeKey)) (l : Option (Nat × LocKey))
    (m : Option (Nat × MagKey))
    (ht : t ∈ leftOpt (timeMatches dt r)) (hl : l ∈ leftOpt (locMatches dl r))
    (hm : m ∈ leftOpt (magMatches dm r)) :
    mkFactRow r (t.map Prod.fst) (l.map Prod.fst) (m.map Prod.fst)
      ∈ factRowsFor dt dl dm r := by
  unfold factRowsFor
  rw [List.mem_flatMap]
  refine ⟨t, ht, ?_⟩
  rw [List.mem_flatMap]
  exact ⟨l, hl, List.mem_map.mpr ⟨m, hm, rfl⟩⟩

theorem factRowsFor_shape (dt : List (Nat × TimeKey)) (dl : List (Nat × LocKey))
    (dm : List (Nat × MagKey)) (r : RawRow) (f : FactRow)
    (hf : f ∈ factRowsFor dt dl dm r) :
    ∃ tid lid mid, f = mkFactRow r tid lid mid := by
  unfold factRowsFor at hf
  rw [List.mem_flatMap] at hf
  obtain ⟨t, _, hf⟩ := hf
  rw [List.mem_flatMap] at hf
  obtain ⟨l, _, hf⟩ := hf
  rw [List.mem_map] at hf
  obtain ⟨m, _, rfl⟩ := hf
  exact ⟨_, _, _, rfl⟩

theorem fact_pre_mem (raw : List RawRow) (r : RawRow) (f : FactRow)
    (hr : r ∈ raw) (hp : prereqOk r = true)
    (hf : f ∈ factRowsFor (create_dim_time raw) (create_dim_location raw)
      (create_dim_magnitude raw) r) :
    f ∈ fact_pre raw := by
  unfold fact_pre
  rw [List.mem_flatMap]
  exact ⟨r, List.mem_filter.mpr ⟨hr, hp⟩, hf⟩

theorem fact_pre_event_ids (raw : List RawRow) (f : FactRow)
    (hf : f ∈ fact_pre raw) :
    f.event_id ∈ raw.map (fun x => x.event_id) := by
  unfold fact_pre at hf
  rw [List.mem_flatMap] at hf
  obtain ⟨r, hr, hf⟩ := hf
  obtain ⟨tid, lid, mid, rfl⟩ := factRowsFor_shape _ _ _ _ _ hf
  exact List.mem_map.mpr ⟨r, (List.mem_filter.mp hr).1, rfl⟩

theorem mem_fact_event_ids (raw : List RawRow) (k : String) :
    k ∈ (create_fact_earthquakes raw).map (fun f => f.event_id) ↔
      k ∈ (fact_pre raw).map (fun f => f.event_id) := by
  unfold create_fact_earthquakes
  by_cases h : 0 < duplicateCount (fact_pre raw)
  · simp only [h, if_true]
    exact mem_map_key_dedupKeyed (fun f => f.event_id) [] (fact_pre raw) k
      (by simp)
  · simp only [h, if_false]

theorem fact_event_ids_nodup (raw : List RawRow) :
    ((create_fact_earthquakes raw).map (fun f => f.event_id)).Nodup := by
  unfold create_fact_earthquakes
  by_cases h : 0 < duplicateCount (fact_pre raw)
  · simp only [h, if_true]
    exact nodup_map_key_dedupKeyed (fun f => f.event_id) [] (fact_pre raw)
  · simp only [h, if_false]
    have h0 : duplicateCount (fact_pre raw) = 0 := by omega
    unfold duplicateCount at h0
    have hsub : ((fact_pre raw).map (fun f => f.event_id)).dedup.Sublist
        ((fact_pre raw).map (fun f => f.event_id)) :=
      List.dedup_sublist _
    have hlen : ((fact_pre raw).map (fun f => f.event_id)).dedup.length =
        ((fact_pre raw).map (fun f => f.event_id)).length := by
      have hle := hsub.length_le
      have hll : ((fact_pre raw).map (fun f => f.event_id)).length =
          (fact_pre raw).length := List.length_map _ _
      omega
    exact List.dedup_eq_self.mp (hsub.eq_of_length hlen)

theorem fact_keeps_event_id (raw : List RawRow) (r : RawRow) (hr : r ∈ raw)
    (hp : prereqOk r = true) :
    ∃ g ∈ create_fact_earthquakes raw, g.event_id = r.event_id := by
  obtain ⟨t, ht⟩ := exists_mem_leftOpt (timeMatches (create_dim_time raw) r)
  obtain ⟨l, hl⟩ := exists_mem_leftOpt (locMatches (create_dim_location raw) r)
  obtain ⟨m, hm⟩ := exists_mem_leftOpt (magMatches (create_dim_magnitude raw) r)
  have hmem := fact_pre_mem raw r _ hr hp
    (mkFactRow_mem_factRowsFor _ _ _ r t l m ht hl hm)
  have hid : r.event_id ∈ (fact_pre raw).map (fun f => f.event_id) :=
    List.mem_map.mpr ⟨_, hmem, rfl⟩
  have h2 := (mem_fact_event_ids raw r.event_id).mpr hid
  obtain ⟨g, hg, he⟩ := List.mem_map.mp h2
  exact ⟨g, hg, he⟩

/-- C2 counterexample: a prerequisite-passing raw row whose magnitude
dimension lookup fails (NULL `magnitude_category`) is NOT excluded from the
fact table — the LEFT JOIN keeps it with `magnitude_id` NULL. -/
theorem fact_join_miss_counterexample :
    (create_fact_earthquakes [rawRowC2]).length = 1
    ∧ (create_fact_earthquakes [rawRowC2]).map (fun f => f.magnitude_id) = [none]
    ∧ (create_fact_earthquakes [rawRowC2]).map (fun f => f.event_id) = ["ev1"] := by
  decide

/-- C2 amended: every raw row passing the prerequisite filter produces at
least one fact row (the LEFT JOINs never drop a row and there is no filter on
the joined keys); when a foreign key fails to resolve — e.g. a NULL
`magnitude_category` making the magnitude join miss — the row is kept with a
NULL foreign key, not excluded. -/
theorem fact_join_miss_kept (raw : List RawRow) (r : RawRow) (hr : r ∈ raw)
    (hp : prereqOk r = true) :
    (∃ f ∈ fact_pre raw, f.event_id = r.event_id
       ∧ (r.magnitude_category = none → f.magnitude_id = none))
    ∧ (∃ g ∈ create_fact_earthquakes raw, g.event_id = r.event_id) := by
  obtain ⟨t, ht⟩ := exists_mem_leftOpt (timeMatches (create_dim_time raw) r)
  obtain ⟨l, hl⟩ := exists_mem_leftOpt (locMatches (create_dim_location raw) r)
  obtain ⟨m, hm⟩ := exists_mem_leftOpt (magMatches (create_dim_magnitude raw) r)
  have hmem := fact_pre_mem raw r _ hr hp
    (mkFactRow_mem_factRowsFor _ _ _ r t l m ht hl hm)
  refine ⟨⟨_, hmem, rfl, ?_⟩, fact_keeps_event_id raw r hr hp⟩
  intro hmc
  have hempty : magMatches (create_dim_magnitude raw) r = [] := by
    unfold magMatches
    apply List.filter_eq_nil_iff.mpr
    intro p _
    simp [hmc, sqlEqOpt_none_left]
  rw [hempty] at hm
  simp only [leftOpt, List.isEmpty_nil, if_true, List.mem_singleton] at hm
  subst hm
  rfl

theorem fact_join_miss_kept_witness :
    ∃ f ∈ fact_pre [rawRowC2], f.event_id = rawRowC2.event_id
      ∧ (rawRowC2.magnitude_category = none → f.magnitude_id = none) :=
  (fact_join_miss_kept [rawRowC2] rawRowC2 (List.mem_singleton.mpr rfl)
    (by decide)).1

/-- C3: after the conditional deduplication pass, `event_id` is unique in the
final fact table for every raw input; on the 3-row example where rows 1 and 3
share event_id usgs001 but differ in depth, the fact table has exactly 2 rows,
exactly one of them with event_id usgs001. -/
theorem fact_event_id_unique :
    (∀ raw : List RawRow,
      ((create_fact_earthquakes raw).map (fun f => f.event_id)).Nodup)
    ∧ (create_fact_earthquakes rawC3).length = 2
    ∧ ((create_fact_earthquakes rawC3).map (fun f => f.event_id)).count "usgs001" = 1 := by
  refine ⟨fact_event_ids_nodup, ?_, ?_⟩ <;> decide

/-- C10: a raw row passing the prerequisite filter is never dropped for NULLs
in the non-prerequisite fields; its fact row maps each NULL to the fixed
COALESCE default — 0 for depth, moon_phase and the numeric quality fields,
and Unknown for the string fields. -/
theorem fact_null_defaults (raw : List RawRow) (r : RawRow) (hr : r ∈ raw)
    (hp : prereqOk r = true) :
    (∃ f ∈ fact_pre raw,
      f.event_id = r.event_id
      ∧ (r.depth = none → f.depth = 0)
      ∧ (r.moon_phase = none → f.moon_phase = 0)
      ∧ (r.num_stations = none → f.num_stations = 0)
      ∧ (r.azimuthal_gap = none → f.azimuthal_gap = 0)
      ∧ (r.min_distance = none → f.min_distance = 0)
      ∧ (r.rms = none → f.rms = 0)
      ∧ (r.horizontal_error = none → f.horizontal_error = 0)
      ∧ (r.depth_error = none → f.depth_error = 0)
      ∧ (r.magnitude_error = none → f.magnitude_error = 0)
      ∧ (r.depth_category = none → f.depth_category = "Unknown")
      ∧ (r.network = none → f.network = "Unknown")
      ∧ (r.status = none → f.status = "Unknown")
      ∧ (r.event_type = none → f.event_type = "Unknown")
      ∧ (r.moon_phase_name = none → f.moon_phase_name = "Unknown"))
    ∧ (∃ g ∈ create_fact_earthquakes raw, g.event_id = r.event_id) := by
  obtain ⟨t, ht⟩ := exists_mem_leftOpt (timeMatches (create_dim_time raw) r)
  obtain ⟨l, hl⟩ := exists_mem_leftOpt (locMatches (create_dim_location raw) r)
  obtain ⟨m, hm⟩ := exists_mem_leftOpt (magMatches (create_dim_magnitude raw) r)
  have hmem := fact_pre_mem raw r _ hr hp
    (mkFactRow_mem_factRowsFor _ _ _ r t l m ht hl hm)
  refine ⟨⟨_, hmem, rfl, ?_, ?_, ?_, ?_, ?_, ?_, ?_, ?_, ?_, ?_, ?_, ?_, ?_, ?_⟩,
    fact_keeps_event_id raw r hr hp⟩ <;>
    (intro h; simp [mkFactRow, h])

theorem fact_null_defaults_witness :
    ∃ g ∈ create_fact_earthquakes [rowC10], g.event_id = rowC10.event_id :=
  (fact_null_defaults [rowC10] rowC10 (List.mem_singleton.mpr rfl)
    (by decide)).2

/-! ### Transform / dim_location lemmas for C8 -/
theorem survives_latitude_bound (cfg : ValidationCfg) (x : RawRow)
    (h : survivesTransform cfg x = true) (v : ℚ) (hv : x.latitude = some v) :
    -90 ≤ v ∧ v ≤ 90 := by
  unfold survivesTransform at h
  simp only [Bool.and_eq_true] at h
  rcases h with ⟨⟨⟨hc, hm⟩, hd⟩, hlat2, hlon⟩
  have hfix : (fillRow x).latitude = x.latitude := rfl
  rw [hfix, hv] at hlat2
  simpa [inRangeQ] using hlat2

theorem lat95_not_survives (cfg : ValidationCfg) (x : RawRow)
    (hv : x.latitude = some 95) : survivesTransform cfg x = false := by
  unfold survivesTransform
  have hfalse : inRangeQ (fillRow x).latitude (-90) 90 = false := by
    have hfix : (fillRow x).latitude = x.latitude := rfl
    rw [hfix, hv]
    decide
  simp [hfalse]

theorem filter_length_unique_bad {α : Type} [DecidableEq α] (p : α → Bool)
    (l : List α) (r : α) (hcount : l.count r = 1) (hbad : p r = false)
    (hothers : ∀ x ∈ l, x ≠ r → p x = true) :
    (l.filter p).length + 1 = l.length := by
  have hneg : List.countP (fun x => decide ¬p x = true) l = 1 := by
    have hc : List.countP (fun x => decide ¬p x = true) l =
        List.countP (fun x => x == r) l := by
      apply List.countP_congr
      intro x hx
      simp only [decide_eq_true_eq, Bool.not_eq_true, beq_iff_eq]
      constructor
      · intro hnp
        by_contra hne
        rw [hothers x hx hne] at hnp
        exact absurd hnp (by simp)
      · intro he
        subst he
        exact hbad
    rw [hc, ← List.count_eq_countP]
    exact hcount
  have hlen := List.length_eq_countP_add_countP p l
  rw [List.countP_eq_length_filter] at hlen
  omega

theorem mem_transform_rows (cfg : ValidationCfg) (df : List RawRow) (x : RawRow) :
    x ∈ transform_rows cfg df ↔
      ∃ y ∈ df, survivesTransform cfg y = true ∧ x = enrichRow (fillRow y) := by
  rw [transform_rows_eq]
  constructor
  · intro hx
    obtain ⟨y, hy, hxy⟩ := List.mem_map.mp hx
    have h2 := List.mem_filter.mp hy
    exact ⟨y, h2.1, h2.2, hxy.symm⟩
  · rintro ⟨y, hy, hs, rfl⟩
    exact List.mem_map.mpr ⟨y, List.mem_filter.mpr ⟨hy, hs⟩, rfl⟩

theorem loc_keys_latitude (l : List RawRow) (k : LocKey) (hk : k ∈ loc_keys l) :
    ∃ x ∈ l, x.latitude = some k.latitude := by
  unfold loc_keys at hk
  rw [List.mem_dedup, List.mem_filterMap] at hk
  obtain ⟨x, hx, he⟩ := hk
  refine ⟨x, hx, ?_⟩
  cases hla : x.latitude with
  | none =>
    cases hlo : x.longitude with
    | none =>
      rw [hla, hlo] at he
      simp at he
    | some lo =>
      rw [hla, hlo] at he
      simp at he
  | some la =>
    cases hlo : x.longitude with
    | none =>
      rw [hla, hlo] at he
      simp at he
    | some lo =>
      rw [hla, hlo] at he
      simp only [Option.some.injEq] at he
      rw [← he]

theorem mem_create_dim_location (raw : List RawRow) (p : Nat × LocKey)
    (hp : p ∈ create_dim_location raw) : p.2 ∈ loc_keys raw := by
  unfold create_dim_location at hp
  have h2 : p.2 ∈ (List.enumFrom 1 (sortBy locKeyLe (loc_keys raw))).map Prod.snd :=
    List.mem_map.mpr ⟨p, hp, rfl⟩
  rw [List.enumFrom_map_snd] at h2
  exact (mem_sortBy _ _ _).mp h2

theorem fact_event_id_from_raw (raw : List RawRow) (g : FactRow)
    (hg : g ∈ create_fact_earthquakes raw) :
    g.event_id ∈ raw.map (fun x => x.event_id) := by
  have h1 : g.event_id ∈ (create_fact_earthquakes raw).map (fun f => f.event_id) :=
    List.mem_map.mpr ⟨g, hg, rfl⟩
  rw [mem_fact_event_ids] at h1
  obtain ⟨f, hf, he⟩ := List.mem_map.mp h1
  rw [← he]
  exact fact_pre_event_ids raw f hf

/-- C8: a raw row with latitude 95 among otherwise valid rows (valid rows
with distinct event ids) is dropped by the transform with a drop count of
exactly 1, survives into neither the transformed raw set, nor `dim_location`,
nor the fact table built over it. -/
theorem invalid_latitude_dropped (cfg : ValidationCfg) (df : List RawRow)
    (r : RawRow) (hmem : r ∈ df) (hlat : r.latitude = some 95)
    (hcount : df.count r = 1)
    (hothers : ∀ x ∈ df, x ≠ r → survivesTransform cfg x = true)
    (hids : ∀ x ∈ df, x ≠ r → x.event_id ≠ r.event_id) :
    (transform_rows cfg df).length + 1 = df.length
    ∧ (∀ x ∈ transform_rows cfg df, x.latitude ≠ some 95)
    ∧ (∀ p ∈ create_dim_location (transform_rows cfg df), p.2.latitude ≠ 95)
    ∧ (∀ g ∈ create_fact_earthquakes (transform_rows cfg df),
        g.event_id ≠ r.event_id) := by
  have hbad := lat95_not_survives cfg r hlat
  refine ⟨?_, ?_, ?_, ?_⟩
  · rw [transform_rows_eq, List.length_map]
    exact filter_length_unique_bad _ df r hcount hbad hothers
  · intro x hx he
    obtain ⟨y, hy, hs, rfl⟩ := (mem_transform_rows cfg df x).mp hx
    have hyl : y.latitude = some 95 := he
    obtain ⟨hge, hle⟩ := survives_latitude_bound cfg y hs 95 hyl
    norm_num at hle
  · intro p hp he
    have hk := mem_create_dim_location _ p hp
    obtain ⟨x, hx, hxl⟩ := loc_keys_latitude _ p.2 hk
    rw [he] at hxl
    obtain ⟨y, hy, hs, rfl⟩ := (mem_transform_rows cfg df x).mp hx
    have hyl : y.latitude = some 95 := hxl
    obtain ⟨hge, hle⟩ := survives_latitude_bound cfg y hs 95 hyl
    norm_num at hle
  · intro g hg he
    have hmap := fact_event_id_from_raw _ g hg
    obtain ⟨x, hx, hxe⟩ := List.mem_map.mp hmap
    obtain ⟨y, hy, hs, hxy⟩ := (mem_transform_rows cfg df x).mp hx
    have hyne : y ≠ r := by
      intro heq
      rw [heq, hbad] at hs
      exact Bool.false_ne_true hs
    apply hids y hy hyne
    have hxid : x.event_id = y.event_id := by
      rw [hxy]
      rfl
    rw [← hxid, hxe, he]

theorem invalid_latitude_dropped_witness :
    (transform_rows cfgC8 [rowC8good, rowC8bad]).length + 1 = 2 :=
  (invalid_latitude_dropped cfgC8 [rowC8good, rowC8bad] rowC8bad (by decide)
    (by decide) (by decide) (by decide) (by decide)).1
